import Mathlib

/-!
Verification development for the Gemini File Search dashboard, a FastAPI
facade over the Google GenAI file-search service.  The definitions below are
a shallow embedding of the Python sources:

* src/api/query.py   -- search route: markdown stripping, citation extraction
* src/api/client.py  -- GeminiClient singleton and request shaping
* src/api/stores.py  -- store CRUD handlers
* src/api/documents.py -- document handlers, upload temp-file lifecycle
* src/main.py        -- router mounting (route table)

Python objects with possibly-absent attributes are embedded as structures
with Option fields: `hasattr` is `Option.isSome`, `getattr(x, f, d)` is
`Option.getD`, and a direct access `x.f` on an absent attribute is an
`Except.error` (AttributeError).  Handlers take the outcome of the remote
call as an explicit `Except` argument and return either a success payload or
an HTTP error pair (status, detail).
-/

namespace GeminiFileSearch

/-! ## Data model for search responses (google.genai generate_content) -/

/-- Retrieved-context data attached to a grounding chunk; both fields are
optional on the wire. -/
structure RetrievedContext where
  title : Option String
  uri : Option String
deriving DecidableEq, Repr

/-- A grounding chunk; `retrieved_context` may be absent. -/
structure GroundingChunk where
  retrieved_context : Option RetrievedContext
deriving DecidableEq, Repr

/-- Grounding metadata of a candidate; the chunk list may be absent. -/
structure GroundingMetadata where
  grounding_chunks : Option (List GroundingChunk)
deriving DecidableEq, Repr

/-- One candidate answer; grounding metadata may be absent. -/
structure Candidate where
  grounding_metadata : Option GroundingMetadata
deriving DecidableEq, Repr

/-- A generate_content response: generated text and candidate list may both
be absent (`hasattr` checks in src/api/query.py lines 38 and 52). -/
structure GenerateContentResponse where
  text : Option String
  candidates : Option (List Candidate)
deriving DecidableEq, Repr

/-- A normalized citation record (src/api/query.py lines 60-63). -/
structure Citation where
  title : String
  uri : String
deriving DecidableEq, Repr

/-- Citation of one grounding chunk: emitted exactly when the chunk carries
retrieved-context data, with title and uri defaulting to the empty string
(src/api/query.py lines 58-64). -/
def chunkCitation (chunk : GroundingChunk) : Option Citation :=
  match chunk.retrieved_context with
  | some ctx => some { title := ctx.title.getD "", uri := ctx.uri.getD "" }
  | none => none

/-- Citation extraction from a search response (src/api/query.py lines
52-64): only the first candidate is inspected, and only when the candidate
list is present and non-empty (Python truthiness of `response.candidates`). -/
def extract_citations (r : GenerateContentResponse) : List Citation :=
  match r.candidates with
  | some (c :: _) =>
    match c.grounding_metadata with
    | some grounding =>
      match grounding.grounding_chunks with
      | some chunks => chunks.filterMap chunkCitation
      | none => []
    | none => []
  | _ => []

/-! ## Markdown stripping (src/api/query.py lines 40-44)

The route applies four global regex substitutions in order:
  re.sub of double-star pairs, double-underscore pairs, single-star pairs,
  single-underscore pairs, each replacing the delimited span by its inner
  content (the inner content is a non-empty run of characters other than the
  delimiter).

Python re.sub scans left to right and replaces non-overlapping matches.
Because the inner character class excludes the delimiter, matching is
deterministic: at an opening delimiter the engine takes the maximal run of
non-delimiter characters and then requires the closing delimiter(s); on
failure it advances one character.  The two scanners below implement exactly
that as structural state machines over the character list.

`subSingleRun d s st`: `st = none` means outside any match attempt;
`st = some run` means an opening `d` has been consumed and `run` is the
inner content collected so far. -/

def subSingleRun (d : Char) : List Char → Option (List Char) → List Char
  | [], none => []
  | [], some run => d :: run
  | c :: cs, none =>
    if c = d then subSingleRun d cs (some [])
    else c :: subSingleRun d cs none
  | c :: cs, some run =>
    if c = d then
      match run with
      | [] => d :: subSingleRun d cs (some [])
      | _ => run ++ subSingleRun d cs none
    else subSingleRun d cs (some (run ++ [c]))

/-- Global substitution of single-delimiter emphasis spans
(`d inner d` with `inner` a non-empty run of non-`d` characters) by their
inner content, as performed by re.sub of the single-star and
single-underscore patterns. -/
def subSingle (d : Char) (s : List Char) : List Char :=
  subSingleRun d s none

/-- Scanner state for the double-delimiter patterns. -/
inductive DblState where
  | outside
  | seenOne
  | collecting (run : List Char)
  | closing (run : List Char)
deriving DecidableEq, Repr

def subDoubleRun (d : Char) : List Char → DblState → List Char
  | [], .outside => []
  | [], .seenOne => [d]
  | [], .collecting run => d :: d :: run
  | [], .closing run => d :: d :: run ++ [d]
  | c :: cs, .outside =>
    if c = d then subDoubleRun d cs .seenOne
    else c :: subDoubleRun d cs .outside
  | c :: cs, .seenOne =>
    if c = d then subDoubleRun d cs (.collecting [])
    else d :: c :: subDoubleRun d cs .outside
  | c :: cs, .collecting run =>
    if c = d then
      match run with
      | [] => d :: subDoubleRun d cs (.collecting [])
      | _ => subDoubleRun d cs (.closing run)
    else subDoubleRun d cs (.collecting (run ++ [c]))
  | c :: cs, .closing run =>
    if c = d then run ++ subDoubleRun d cs .outside
    else d :: d :: run ++ d :: c :: subDoubleRun d cs .outside

/-- Global substitution of double-delimiter emphasis spans
(`dd inner dd` with `inner` a non-empty run of non-`d` characters) by their
inner content, as performed by re.sub of the double-star and
double-underscore patterns. -/
def subDouble (d : Char) (s : List Char) : List Char :=
  subDoubleRun d s .outside

/-- The four substitutions in source order (src/api/query.py lines 41-44). -/
def strip_markdown_chars (s : List Char) : List Char :=
  subSingle '_' (subSingle '*' (subDouble '_' (subDouble '*' s)))

def strip_markdown (s : String) : String :=
  String.mk (strip_markdown_chars s.toList)

/-- Result of the search route (src/api/query.py lines 46-66). -/
structure QueryResult where
  text : String
  citations : List Citation
deriving DecidableEq, Repr

/-- Normalization performed by the search route on a successful remote
response (src/api/query.py lines 38-66): default missing text to the empty
string, strip markdown emphasis, extract citations. -/
def search_normalize (r : GenerateContentResponse) : QueryResult :=
  { text := strip_markdown (r.text.getD ""),
    citations := extract_citations r }

/-! ## Remote failures and HTTP errors -/

/-- Failure subtypes the remote service or client may raise.  The handlers
catch all of them with one `except Exception` clause. -/
inductive RemoteError where
  | notFound (msg : String)
  | authFailure (msg : String)
  | quotaExceeded (msg : String)
  | networkFailure (msg : String)
deriving DecidableEq, Repr

def RemoteError.message : RemoteError → String
  | .notFound m => m
  | .authFailure m => m
  | .quotaExceeded m => m
  | .networkFailure m => m

/-- An HTTPException response: status code and the detail string of the JSON
body. -/
abbrev HTTPError := Nat × String

/-! ## Store and document records (src/api/stores.py, src/api/documents.py)

Fields the remote service may omit are Option fields; the others are plain.
For documents, `size_bytes` is optional on the remote side but the handlers
read it with a direct attribute access (src/api/documents.py lines 74 and
102), while `custom_metadata` is read with a getattr default (lines 78 and
106). -/

structure RemoteStore where
  name : String
  display_name : String
  create_time : String
  update_time : String
  active_documents_count : Option Nat
  pending_documents_count : Option Nat
  failed_documents_count : Option Nat
  size_bytes : Option Nat
deriving DecidableEq, Repr

structure StoreOut where
  name : String
  display_name : String
  create_time : String
  update_time : String
  active_documents_count : Nat
  pending_documents_count : Nat
  failed_documents_count : Nat
  size_bytes : Nat
deriving DecidableEq, Repr

/-- Store record summarization (src/api/stores.py lines 44-53 and 67-76):
each optional count and the size are read with getattr defaulting to 0. -/
def store_to_dict (s : RemoteStore) : StoreOut :=
  { name := s.name,
    display_name := s.display_name,
    create_time := s.create_time,
    update_time := s.update_time,
    active_documents_count := s.active_documents_count.getD 0,
    pending_documents_count := s.pending_documents_count.getD 0,
    failed_documents_count := s.failed_documents_count.getD 0,
    size_bytes := s.size_bytes.getD 0 }

structure CustomMetadataEntry where
  key : String
  string_value : String
deriving DecidableEq, Repr

structure RemoteDocument where
  name : String
  display_name : String
  create_time : String
  update_time : String
  state : String
  mime_type : String
  size_bytes : Option Nat
  custom_metadata : Option (List CustomMetadataEntry)
deriving DecidableEq, Repr

structure DocumentOut where
  name : String
  display_name : String
  create_time : String
  update_time : String
  state : String
  mime_type : String
  size_bytes : Nat
  custom_metadata : List (String × String)
deriving DecidableEq, Repr

/-- Direct Python attribute access: raises AttributeError when the attribute
is absent. -/
def attr_get (field : String) : Option α → Except String α
  | some v => .ok v
  | none => .error ("AttributeError: " ++ field)

/-- Document record summarization (src/api/documents.py lines 68-79 and
96-108): `size_bytes` is a direct access (raises when absent), while
`custom_metadata` uses getattr with default empty list. -/
def document_to_dict (d : RemoteDocument) : Except String DocumentOut := do
  let sz ← attr_get "size_bytes" d.size_bytes
  .ok { name := d.name,
        display_name := d.display_name,
        create_time := d.create_time,
        update_time := d.update_time,
        state := d.state,
        mime_type := d.mime_type,
        size_bytes := sz,
        custom_metadata :=
          (d.custom_metadata.getD []).map fun m => (m.key, m.string_value) }

/-! ## Route handlers

Each handler takes the remote call outcome as an `Except RemoteError`
argument.  The single `except Exception` clause of each Python handler maps
every failure to one fixed status code: 404 in get_store and get_document,
500 everywhere else. -/

def create_store_handler (remote : Except RemoteError RemoteStore) :
    Except HTTPError (String × String × String) :=
  match remote with
  | .ok s => .ok (s.name, s.display_name, s.create_time)
  | .error e => .error (500, e.message)

def list_stores_handler (remote : Except RemoteError (List RemoteStore)) :
    Except HTTPError (List StoreOut) :=
  match remote with
  | .ok stores => .ok (stores.map store_to_dict)
  | .error e => .error (500, e.message)

def get_store_handler (remote : Except RemoteError RemoteStore) :
    Except HTTPError StoreOut :=
  match remote with
  | .ok s => .ok (store_to_dict s)
  | .error e => .error (404, e.message)

def delete_store_handler (remote : Except RemoteError Unit) :
    Except HTTPError String :=
  match remote with
  | .ok _ => .ok "Store deleted successfully"
  | .error e => .error (500, e.message)

def list_documents_handler (remote : Except RemoteError (List RemoteDocument)) :
    Except HTTPError (List DocumentOut) :=
  match remote with
  | .ok docs =>
    match docs.mapM document_to_dict with
    | .ok outs => .ok outs
    | .error e => .error (500, e)
  | .error e => .error (500, e.message)

def get_document_handler (remote : Except RemoteError RemoteDocument) :
    Except HTTPError DocumentOut :=
  match remote with
  | .ok d =>
    match document_to_dict d with
    | .ok out => .ok out
    | .error e => .error (404, e)
  | .error e => .error (404, e.message)

def delete_document_handler (remote : Except RemoteError Unit) :
    Except HTTPError String :=
  match remote with
  | .ok _ => .ok "Document deleted successfully"
  | .error e => .error (500, e.message)

/-- A long-running remote operation handle. -/
structure Operation where
  name : String
  done : Bool
  metadata : Option String
deriving DecidableEq, Repr

def get_operation_handler (remote : Except RemoteError Operation) :
    Except HTTPError (String × Bool × Option String) :=
  match remote with
  | .ok op => .ok (op.name, op.done, op.metadata)
  | .error e => .error (500, e.message)

def search_handler (remote : Except RemoteError GenerateContentResponse) :
    Except HTTPError QueryResult :=
  match remote with
  | .ok r => .ok (search_normalize r)
  | .error e => .error (500, e.message)

/-! ## Upload handler temp-file lifecycle (src/api/documents.py lines 23-54)

The handler writes the uploaded bytes to a temporary file, calls the remote
upload, and runs `os.unlink(tmp_path)` on the line after the remote call
inside the try block.  When the remote call raises, control jumps to the
except clause and the unlink line is skipped.  `tmp_deleted` records whether
the unlink line executed. -/

structure UploadResponse where
  operation_name : String
  done : Bool
  message : String
deriving DecidableEq, Repr

structure UploadOutcome where
  tmp_deleted : Bool
  response : Except HTTPError UploadResponse

def upload_document_handler (remote : Except RemoteError Operation) :
    UploadOutcome :=
  match remote with
  | .ok op =>
    { tmp_deleted := true,
      response := .ok { operation_name := op.name, done := op.done,
                        message := "Upload initiated" } }
  | .error e =>
    { tmp_deleted := false,
      response := .error (500, e.message) }

/-! ## Client request shaping (src/api/client.py lines 55-76)

`upload_document` builds a config dict: display_name is added when truthy,
and `if metadata:` adds the custom_metadata list only when the metadata dict
is neither None nor empty. -/

structure UploadConfig where
  display_name : Option String
  custom_metadata : Option (List CustomMetadataEntry)
deriving DecidableEq, Repr

def build_upload_config (display_name : Option String)
    (metadata : Option (List (String × String))) : UploadConfig :=
  { display_name :=
      match display_name with
      | some dn => if dn = "" then none else some dn
      | none => none,
    custom_metadata :=
      match metadata with
      | some (p :: ps) =>
        some ((p :: ps).map fun kv => { key := kv.1, string_value := kv.2 })
      | _ => none }

/-! ## GeminiClient singleton (src/api/client.py lines 10-31)

The class keeps two class-level slots: `_instance` (set by new) and
`_client` (set by the first init that finds the api key).  `acquire` models
one evaluation of `GeminiClient()`: new then init.  The ghost counters
record how many times the env var was read and how many times the underlying
genai.Client transport was constructed.  The client slot stores the api key
the transport was built with. -/

structure GeminiClientState where
  instance_exists : Bool
  client : Option String
  init_count : Nat
  env_reads : Nat
deriving DecidableEq, Repr

def initialState : GeminiClientState :=
  { instance_exists := false, client := none, init_count := 0, env_reads := 0 }

def acquire (env : Option String) (s : GeminiClientState) :
    GeminiClientState × Except String String :=
  let s1 := { s with instance_exists := true }
  match s1.client with
  | some c => (s1, .ok c)
  | none =>
    let s2 := { s1 with env_reads := s1.env_reads + 1 }
    match env with
    | none => (s2, .error "GEMINI_API_KEY not found in environment")
    | some k =>
      if k = "" then (s2, .error "GEMINI_API_KEY not found in environment")
      else ({ s2 with client := some k, init_count := s2.init_count + 1 }, .ok k)

/-- Repeated acquisitions within one process: the state reached after the
given sequence of `GeminiClient()` evaluations, each seeing the recorded
environment value. -/
def runAcquires : List (Option String) → GeminiClientState → GeminiClientState
  | [], s => s
  | e :: es, s => runAcquires es (acquire e s).1

/-! ## Route table (src/main.py lines 33-51, router declarations)

The stores router is mounted at prefix /api/stores, the query router at
/api/query, but the documents router at prefix /stores
(src/api/documents.py line 12).  The two HTML page routes are registered
after the routers.  Matching follows FastAPI: split on slash, a segment
written in braces matches any one path segment. -/

structure Route where
  method : String
  path : String
deriving DecidableEq, Repr

def stores_mount : String := "/api/stores"
def documents_mount : String := "/stores"
def query_mount : String := "/api/query"

def stores_routes : List Route :=
  [ { method := "POST", path := stores_mount },
    { method := "GET", path := stores_mount },
    { method := "GET", path := stores_mount ++ "/{store_id}" },
    { method := "DELETE", path := stores_mount ++ "/{store_id}" } ]

def documents_routes : List Route :=
  [ { method := "POST", path := documents_mount ++ "/{store_id}/upload" },
    { method := "GET", path := documents_mount ++ "/{store_id}/documents" },
    { method := "GET", path := documents_mount ++ "/documents/{document_id}" },
    { method := "DELETE",
      path := documents_mount ++ "/{store_id}/documents/{document_id}" },
    { method := "GET", path := documents_mount ++ "/operations/{operation_id}" } ]

def query_routes : List Route :=
  [ { method := "POST", path := query_mount },
    { method := "POST", path := query_mount ++ "/document/{document_id}" } ]

def page_routes : List Route :=
  [ { method := "GET", path := "/" },
    { method := "GET", path := "/stores/{store_id}" } ]

def app_routes : List Route :=
  stores_routes ++ documents_routes ++ query_routes ++ page_routes

def splitSegs (s : List Char) : List (List Char) :=
  s.foldr
    (fun c acc =>
      match acc with
      | seg :: rest => if c = '/' then [] :: seg :: rest else (c :: seg) :: rest
      | [] => [[c]])
    [[]]

def isParamSeg : List Char → Bool
  | '\x7b' :: _ => true
  | _ => false

def segsMatch : List (List Char) → List (List Char) → Bool
  | [], [] => true
  | p :: ps, s :: ss => (isParamSeg p || p = s) && segsMatch ps ss
  | _, _ => false

def routeMatches (r : Route) (method path : String) : Bool :=
  (r.method == method) && segsMatch (splitSegs r.path.toList) (splitSegs path.toList)

/-- First route the application matches for a request, in mount order. -/
def dispatch (method path : String) : Option Route :=
  app_routes.find? (fun r => routeMatches r method path)

/-! ## get_document parameter binding (src/api/documents.py lines 88-95)

The route path is /documents/{document_id} under the documents mount, so
document_id is the only path parameter.  The handler signature is
get_document(store_id, document_id); following FastAPI, a handler parameter
that is not a path parameter and has no default is a required query
parameter.  The remote lookup name is built by the f-string on line 94. -/

def paramName : List Char → Option String
  | '\x7b' :: rest => some (String.mk rest.dropLast)
  | _ => none

def pathParamsOf (p : String) : List String :=
  (splitSegs p.toList).filterMap paramName

def get_document_route : String := documents_mount ++ "/documents/{document_id}"

def get_document_handler_params : List String := ["store_id", "document_id"]

def required_query_params (route : String) (handlerParams : List String) :
    List String :=
  handlerParams.filter fun h => !((pathParamsOf route).contains h)

def get_document_name (store_id document_id : String) : String :=
  "fileSearchStores/" ++ store_id ++ "/documents/" ++ document_id

def find_param (k : String) : List (String × String) → Option String
  | [] => none
  | (k2, v) :: rest => if k2 = k then some v else find_param k rest

/-- Modelled FastAPI binding for get_document: document_id comes from the
path, store_id must come from the query string; binding fails when it is
absent (FastAPI rejects the request before the handler runs). -/
def bind_get_document (document_id : String)
    (query : List (String × String)) : Option String :=
  (find_param "store_id" query).map fun sid => get_document_name sid document_id

/-! ## Helper lemmas for the markdown scanners -/

theorem subSingleRun_noop (d : Char) (s : List Char) (h : d ∉ s) :
    subSingleRun d s none = s := by
  induction s with
  | nil => rfl
  | cons c cs ih =>
    have hc : ¬ c = d := by rintro rfl; exact h (List.mem_cons_self c cs)
    have hcs : d ∉ cs := fun hm => h (List.mem_cons_of_mem c hm)
    simp [subSingleRun, hc, ih hcs]

theorem subSingle_noop (d : Char) (s : List Char) (h : d ∉ s) :
    subSingle d s = s :=
  subSingleRun_noop d s h

theorem subSingleRun_collect (d : Char) (w t : List Char) (run : List Char)
    (h : d ∉ w) :
    subSingleRun d (w ++ t) (some run) = subSingleRun d t (some (run ++ w)) := by
  induction w generalizing run with
  | nil => simp
  | cons a w ih =>
    have ha : ¬ a = d := by rintro rfl; exact h (List.mem_cons_self a w)
    have hw : d ∉ w := fun hm => h (List.mem_cons_of_mem a hm)
    simp only [List.cons_append, subSingleRun, if_neg ha]
    show subSingleRun d (w ++ t) (some (run ++ [a]))
        = subSingleRun d t (some (run ++ a :: w))
    rw [ih (run ++ [a]) hw]
    simp

theorem subSingle_strip (d : Char) (w : List Char) (hw : w ≠ []) (h : d ∉ w) :
    subSingle d (d :: (w ++ [d])) = w := by
  obtain ⟨a, w2, rfl⟩ : ∃ a w2, w = a :: w2 := by
    cases w with
    | nil => exact absurd rfl hw
    | cons a w2 => exact ⟨a, w2, rfl⟩
  show subSingleRun d (d :: (a :: w2 ++ [d])) none = a :: w2
  calc subSingleRun d (d :: (a :: w2 ++ [d])) none
      = subSingleRun d ((a :: w2) ++ [d]) (some []) := by simp [subSingleRun]
    _ = subSingleRun d [d] (some ([] ++ (a :: w2))) :=
        subSingleRun_collect d (a :: w2) [d] [] h
    _ = a :: w2 := by simp [subSingleRun]

theorem subDoubleRun_noop (d : Char) (s : List Char) (h : d ∉ s) :
    subDoubleRun d s .outside = s := by
  induction s with
  | nil => rfl
  | cons c cs ih =>
    have hc : ¬ c = d := by rintro rfl; exact h (List.mem_cons_self c cs)
    have hcs : d ∉ cs := fun hm => h (List.mem_cons_of_mem c hm)
    simp [subDoubleRun, hc, ih hcs]

theorem subDouble_noop (d : Char) (s : List Char) (h : d ∉ s) :
    subDouble d s = s :=
  subDoubleRun_noop d s h

theorem subDoubleRun_advance (d : Char) (w t : List Char) (h : d ∉ w) :
    subDoubleRun d (w ++ t) .outside = w ++ subDoubleRun d t .outside := by
  induction w with
  | nil => simp
  | cons a w ih =>
    have ha : ¬ a = d := by rintro rfl; exact h (List.mem_cons_self a w)
    have hw : d ∉ w := fun hm => h (List.mem_cons_of_mem a hm)
    simp [subDoubleRun, ha, ih hw]

theorem subDoubleRun_collect (d : Char) (w t run : List Char) (h : d ∉ w) :
    subDoubleRun d (w ++ t) (.collecting run)
      = subDoubleRun d t (.collecting (run ++ w)) := by
  induction w generalizing run with
  | nil => simp
  | cons a w ih =>
    have ha : ¬ a = d := by rintro rfl; exact h (List.mem_cons_self a w)
    have hw : d ∉ w := fun hm => h (List.mem_cons_of_mem a hm)
    simp only [List.cons_append, subDoubleRun, if_neg ha]
    show subDoubleRun d (w ++ t) (.collecting (run ++ [a]))
        = subDoubleRun d t (.collecting (run ++ a :: w))
    rw [ih (run ++ [a]) hw]
    simp

theorem subDouble_strip (d : Char) (w : List Char) (hw : w ≠ []) (h : d ∉ w) :
    subDouble d (d :: d :: (w ++ [d, d])) = w := by
  obtain ⟨a, w2, rfl⟩ : ∃ a w2, w = a :: w2 := by
    cases w with
    | nil => exact absurd rfl hw
    | cons a w2 => exact ⟨a, w2, rfl⟩
  show subDoubleRun d (d :: d :: (a :: w2 ++ [d, d])) .outside = a :: w2
  calc subDoubleRun d (d :: d :: (a :: w2 ++ [d, d])) .outside
      = subDoubleRun d ((a :: w2) ++ [d, d]) (.collecting []) := by
        simp [subDoubleRun]
    _ = subDoubleRun d [d, d] (.collecting ([] ++ (a :: w2))) :=
        subDoubleRun_collect d (a :: w2) [d, d] [] h
    _ = a :: w2 := by simp [subDoubleRun]

theorem subDouble_single_noop (d : Char) (w : List Char) (hw : w ≠ [])
    (h : d ∉ w) :
    subDouble d (d :: (w ++ [d])) = d :: (w ++ [d]) := by
  obtain ⟨a, w2, rfl⟩ : ∃ a w2, w = a :: w2 := by
    cases w with
    | nil => exact absurd rfl hw
    | cons a w2 => exact ⟨a, w2, rfl⟩
  have ha : ¬ a = d := by rintro rfl; exact h (List.mem_cons_self a w2)
  have hw2 : d ∉ w2 := fun hm => h (List.mem_cons_of_mem a hm)
  show subDoubleRun d (d :: (a :: w2 ++ [d])) .outside = d :: (a :: w2 ++ [d])
  calc subDoubleRun d (d :: (a :: w2 ++ [d])) .outside
      = d :: a :: subDoubleRun d (w2 ++ [d]) .outside := by
        simp [subDoubleRun, ha]
    _ = d :: a :: (w2 ++ subDoubleRun d [d] .outside) := by
        rw [subDoubleRun_advance d w2 [d] hw2]
    _ = d :: (a :: w2 ++ [d]) := by simp [subDoubleRun]

theorem not_mem_double_wrap (a d : Char) (w : List Char) (hne : a ≠ d)
    (hw : a ∉ w) :
    a ∉ d :: d :: (w ++ [d, d]) := by
  intro hm
  rcases List.mem_cons.mp hm with h1 | hm
  · exact hne h1
  rcases List.mem_cons.mp hm with h1 | hm
  · exact hne h1
  rcases List.mem_append.mp hm with h1 | hm
  · exact hw h1
  rcases List.mem_cons.mp hm with h1 | hm
  · exact hne h1
  rcases List.mem_cons.mp hm with h1 | hm
  · exact hne h1
  · exact List.not_mem_nil a hm

theorem not_mem_single_wrap (a d : Char) (w : List Char) (hne : a ≠ d)
    (hw : a ∉ w) :
    a ∉ d :: (w ++ [d]) := by
  intro hm
  rcases List.mem_cons.mp hm with h1 | hm
  · exact hne h1
  rcases List.mem_append.mp hm with h1 | hm
  · exact hw h1
  rcases List.mem_cons.mp hm with h1 | hm
  · exact hne h1
  · exact List.not_mem_nil a hm

/-! ## Helper lemmas for the client singleton -/

theorem acquire_count (env : Option String) (s : GeminiClientState)
    (h1 : s.init_count ≤ 1) (h2 : s.client = none → s.init_count = 0) :
    (acquire env s).1.init_count ≤ 1
      ∧ ((acquire env s).1.client = none → (acquire env s).1.init_count = 0) := by
  obtain ⟨flag, cl, ic, er⟩ := s
  cases cl with
  | some c => exact ⟨h1, h2⟩
  | none =>
    have h0 : ic = 0 := h2 rfl
    subst h0
    cases env with
    | none => exact ⟨h1, fun _ => rfl⟩
    | some k =>
      by_cases hk : k = ""
      · simp [acquire, hk]
      · simp [acquire, hk]

theorem runAcquires_count (envs : List (Option String)) (s : GeminiClientState)
    (h1 : s.init_count ≤ 1) (h2 : s.client = none → s.init_count = 0) :
    (runAcquires envs s).init_count ≤ 1 := by
  induction envs generalizing s with
  | nil => exact h1
  | cons e es ih =>
    have h := acquire_count e s h1 h2
    exact ih (acquire e s).1 h.1 h.2

/-! ## Claim theorems -/

/-- Claim C1: the citation extractor inspects only the first candidate and,
for each grounding chunk in response order, emits one citation exactly when
the chunk carries retrieved-context data (fields defaulting to the empty
string), silently skipping the others; a response with two grounding chunks,
one carrying retrieved-context (title A, uri u1) and one without, yields
exactly the one citation (A, u1). -/
theorem C1_citation_extraction (text : Option String) (cs : List Candidate)
    (chunks : List GroundingChunk) :
    extract_citations
        { text := text,
          candidates := some
            ({ grounding_metadata := some { grounding_chunks := some chunks } }
              :: cs) }
      = chunks.filterMap chunkCitation
  ∧ chunkCitation { retrieved_context := none } = none
  ∧ (∀ ctx : RetrievedContext,
      chunkCitation { retrieved_context := some ctx }
        = some { title := ctx.title.getD "", uri := ctx.uri.getD "" })
  ∧ extract_citations
        { text := none,
          candidates :=
            some [{ grounding_metadata :=
                      some { grounding_chunks :=
                               some [{ retrieved_context :=
                                         some { title := some "A",
                                                uri := some "u1" } },
                                     { retrieved_context := none }] } }] }
      = [{ title := "A", uri := "u1" }] :=
  ⟨rfl, rfl, fun _ => rfl, by decide⟩

/-- Claim C2: the markdown-stripping transform collapses double-delimiter
and single-delimiter emphasis to the inner content; in particular the input
double-star bold, star italic, double-underscore also, underscore this
normalizes to the bare words. -/
theorem C2_markdown_strip (w : List Char) (hw : w ≠ [])
    (hs : '*' ∉ w) (hu : '_' ∉ w) :
    strip_markdown_chars ('*' :: '*' :: (w ++ ['*', '*'])) = w
  ∧ strip_markdown_chars ('_' :: '_' :: (w ++ ['_', '_'])) = w
  ∧ strip_markdown_chars ('*' :: (w ++ ['*'])) = w
  ∧ strip_markdown_chars ('_' :: (w ++ ['_'])) = w
  ∧ strip_markdown "**bold** and *italic* and __also__ and _this_"
      = "bold and italic and also and this" := by
  refine ⟨?_, ?_, ?_, ?_, by decide⟩
  · rw [strip_markdown_chars, subDouble_strip '*' w hw hs,
      subDouble_noop '_' w hu, subSingle_noop '*' w hs, subSingle_noop '_' w hu]
  · rw [strip_markdown_chars,
      subDouble_noop '*' _ (not_mem_double_wrap '*' '_' w (by decide) hs),
      subDouble_strip '_' w hw hu, subSingle_noop '*' w hs,
      subSingle_noop '_' w hu]
  · rw [strip_markdown_chars, subDouble_single_noop '*' w hw hs,
      subDouble_noop '_' _ (not_mem_single_wrap '_' '*' w (by decide) hu),
      subSingle_strip '*' w hw hs, subSingle_noop '_' w hu]
  · rw [strip_markdown_chars,
      subDouble_noop '*' _ (not_mem_single_wrap '*' '_' w (by decide) hs),
      subDouble_single_noop '_' w hw hu,
      subSingle_noop '*' _ (not_mem_single_wrap '*' '_' w (by decide) hs),
      subSingle_strip '_' w hw hu]

/-- Witness for C2 at the concrete inner content bold. -/
theorem C2_markdown_strip_witness :
    strip_markdown_chars ('*' :: '*' :: (['b', 'o', 'l', 'd'] ++ ['*', '*']))
      = ['b', 'o', 'l', 'd']
  ∧ strip_markdown "**bold** and *italic* and __also__ and _this_"
      = "bold and italic and also and this" :=
  ⟨(C2_markdown_strip ['b', 'o', 'l', 'd'] (by decide) (by decide) (by decide)).1,
   (C2_markdown_strip ['b', 'o', 'l', 'd'] (by decide) (by decide)
      (by decide)).2.2.2.2⟩

/-- Claim C3 (code behavior at the failing input): the temp-file unlink runs
when the remote upload call returns normally, but when the call raises the
unlink line is skipped and the handler returns the 500 error, leaving the
temporary file on disk.  This contradicts the claim that the file is deleted
unconditionally. -/
theorem C3_code_behavior :
    (upload_document_handler
        (.ok { name := "operations/op1", done := false, metadata := none })).tmp_deleted
      = true
  ∧ (upload_document_handler
        (.error (RemoteError.networkFailure "connection reset"))).tmp_deleted
      = false
  ∧ (upload_document_handler
        (.error (RemoteError.networkFailure "connection reset"))).response
      = .error (500, "connection reset") :=
  ⟨rfl, rfl, rfl⟩

/-- Claim C4, counterexample: a document record whose remote side omits
size_bytes does not get a zero default; the direct attribute access raises
and the listing handler answers 500 instead of a complete record. -/
theorem C4_counterexample :
    list_documents_handler
        (.ok [{ name := "fileSearchStores/s1/documents/d1",
                display_name := "doc1", create_time := "t1", update_time := "t1",
                state := "ACTIVE", mime_type := "text/plain",
                size_bytes := none, custom_metadata := none }])
      = .error (500, "AttributeError: size_bytes") :=
  rfl

/-- Claim C4 as amended: store records substitute a zero default for every
optional count and size field, so the store handlers always produce the
complete field set; document records default only custom metadata to the
empty list, while a document missing size_bytes makes document_to_dict fail
with an AttributeError instead of defaulting. -/
theorem C4_amended_defaults (s : RemoteStore) (d : RemoteDocument) (sz : Nat) :
    get_store_handler (.ok s) = .ok (store_to_dict s)
  ∧ list_stores_handler (.ok [s]) = .ok [store_to_dict s]
  ∧ store_to_dict
        { s with active_documents_count := none, pending_documents_count := none,
                 failed_documents_count := none, size_bytes := none }
      = { name := s.name, display_name := s.display_name,
          create_time := s.create_time, update_time := s.update_time,
          active_documents_count := 0, pending_documents_count := 0,
          failed_documents_count := 0, size_bytes := 0 }
  ∧ document_to_dict { d with size_bytes := some sz, custom_metadata := none }
      = .ok { name := d.name, display_name := d.display_name,
              create_time := d.create_time, update_time := d.update_time,
              state := d.state, mime_type := d.mime_type,
              size_bytes := sz, custom_metadata := [] }
  ∧ document_to_dict { d with size_bytes := none }
      = .error "AttributeError: size_bytes" := by
  obtain ⟨sn, sdn, sct, sut, sac, spc, sfc, ssz⟩ := s
  obtain ⟨dn, ddn, dct, dut, dst, dmt, dsz, dcm⟩ := d
  exact ⟨rfl, rfl, rfl, rfl, rfl⟩

/-- Claim C5, counterexample: an auth failure (not a not-found lookup) in
get_store is answered with 404, and a not-found failure in delete_document is
answered with 500; both contradict the claim that 404 appears exactly for
not-found failures. -/
theorem C5_counterexample :
    get_store_handler (.error (RemoteError.authFailure "API key invalid"))
      = .error (404, "API key invalid")
  ∧ delete_document_handler (.error (RemoteError.notFound "document not found"))
      = .error (500, "document not found") :=
  ⟨rfl, rfl⟩

/-- Claim C5 as amended: every failing request produces the error pair with
the message as detail, but the status code is fixed per handler, not per
failure subtype: get_store and get_document answer 404 for every failure,
and every other handler answers 500 for every failure, not-found included. -/
theorem C5_amended_status_map (e : RemoteError) :
    get_store_handler (.error e) = .error (404, e.message)
  ∧ get_document_handler (.error e) = .error (404, e.message)
  ∧ create_store_handler (.error e) = .error (500, e.message)
  ∧ list_stores_handler (.error e) = .error (500, e.message)
  ∧ delete_store_handler (.error e) = .error (500, e.message)
  ∧ list_documents_handler (.error e) = .error (500, e.message)
  ∧ delete_document_handler (.error e) = .error (500, e.message)
  ∧ get_operation_handler (.error e) = .error (500, e.message)
  ∧ search_handler (.error e) = .error (500, e.message)
  ∧ (upload_document_handler (.error e)).response = .error (500, e.message) :=
  ⟨rfl, rfl, rfl, rfl, rfl, rfl, rfl, rfl, rfl, rfl⟩

/-- Claim C6: every metadata entry passed to upload becomes one pair with
that key and string value, and an empty (or absent) map omits the
custom_metadata field from the remote request config entirely. -/
theorem C6_upload_metadata (dn : Option String) (m : List (String × String))
    (k v : String) :
    (build_upload_config dn (some ((k, v) :: m))).custom_metadata
      = some (((k, v) :: m).map fun kv => { key := kv.1, string_value := kv.2 })
  ∧ (build_upload_config dn (some [])).custom_metadata = none
  ∧ (build_upload_config dn none).custom_metadata = none
  ∧ (build_upload_config dn (some [("author", "x")])).custom_metadata
      = some [{ key := "author", string_value := "x" }] :=
  ⟨rfl, rfl, rfl, rfl⟩

/-- Claim C7 (code behavior at the failing input): the documents router is
mounted at the bare /stores path, so upload, document lookup and operation
polling are served at /stores/... while the /api/stores/... forms of those
paths, which the specification and the repository tests use, match no route
at all. -/
theorem C7_code_behavior :
    dispatch "POST" "/stores/s1/upload"
      = some { method := "POST", path := "/stores/{store_id}/upload" }
  ∧ dispatch "POST" "/api/stores/s1/upload" = none
  ∧ dispatch "GET" "/stores/documents/d1"
      = some { method := "GET", path := "/stores/documents/{document_id}" }
  ∧ dispatch "GET" "/api/stores/documents/d1" = none
  ∧ dispatch "GET" "/stores/operations/op1"
      = some { method := "GET", path := "/stores/operations/{operation_id}" }
  ∧ dispatch "GET" "/api/stores/operations/op1" = none := by
  exact ⟨by decide, by decide, by decide, by decide, by decide, by decide⟩

/-- Claim C8: the transport is initialized at most once per process however
the acquisition sequence goes, and once a client exists every further
acquisition returns the same client unchanged, with no new environment read
and no new transport construction. -/
theorem C8_singleton_client (envs : List (Option String))
    (env2 : Option String) (s : GeminiClientState) (k : String) :
    (runAcquires envs initialState).init_count ≤ 1
  ∧ acquire env2 { s with instance_exists := true, client := some k }
      = ({ s with instance_exists := true, client := some k }, .ok k)
  ∧ (acquire env2 { s with instance_exists := true, client := some k }).1.env_reads
      = s.env_reads := by
  refine ⟨runAcquires_count envs initialState (Nat.zero_le 1) (fun _ => rfl), ?_, ?_⟩
  · obtain ⟨flag, cl, ic, er⟩ := s
    rfl
  · obtain ⟨flag, cl, ic, er⟩ := s
    rfl

/-- Claim C9: when the search response carries no generated text, the
normalizer outputs the empty string as the text field and the handler still
answers successfully (the field is present, nothing is raised). -/
theorem C9_empty_text (r : GenerateContentResponse) :
    (search_normalize { r with text := none }).text = ""
  ∧ search_handler (.ok { r with text := none })
      = .ok (search_normalize { r with text := none }) :=
  ⟨rfl, rfl⟩

/-- Claim C10: the single-document lookup route is
/stores/documents/{document_id}, whose only path parameter is document_id;
store_id is a required query parameter (it is a handler parameter without a
default that is not in the path), and the remote lookup name is
fileSearchStores/{store_id}/documents/{document_id}. -/
theorem C10_get_document_binding (s d document_id : String) :
    get_document_route = "/stores/documents/{document_id}"
  ∧ pathParamsOf get_document_route = ["document_id"]
  ∧ required_query_params get_document_route get_document_handler_params
      = ["store_id"]
  ∧ get_document_name s d = "fileSearchStores/" ++ s ++ "/documents/" ++ d
  ∧ bind_get_document document_id [] = none
  ∧ bind_get_document "d1" [("store_id", "s1")]
      = some "fileSearchStores/s1/documents/d1" := by
  exact ⟨by decide, by decide, by decide, rfl, rfl, by decide⟩

end GeminiFileSearch
